import Mathlib

/-!
Shallow embedding of the IndiaNext theme-adjustment scripts.

The repository consists of two Python scripts, `fix_ui.py` (the "Color
Brightener") and `remove_solid_bg.py` (the "Background Transparency
Adjuster").  Each reads a file, applies an ordered chain of literal
`str.replace` substitutions to its text, writes it back, and prints one
summary line.  Texts are modelled as `List Char`; Python's
`str.replace(old, new)` is modelled by `pyReplace` (a left-to-right
scan replacing non-overlapping occurrences, with the replacement text
not rescanned by the same call), Python's `in` substring test by
`occursIn`, and Python's `str.count` by `pyCount`.
-/

/-- A literal replacement rule: one `content.replace(pat, rep)` call. -/
structure Rule where
  pat : List Char
  rep : List Char
deriving DecidableEq

/-- Build a rule from string literals as they appear in the scripts. -/
def mkRule (p r : String) : Rule := ⟨p.toList, r.toList⟩

/-- Fuel-driven scanner behind `pyReplace`.  At each position, if the
pattern is a prefix of the remaining text the replacement is emitted and
the scan resumes after the matched occurrence; otherwise one character is
kept.  Fuel bounds the number of steps; any fuel at least the text length
gives the real semantics. -/
def replaceFuel (pat rep : List Char) : Nat → List Char → List Char
  | 0, t => t
  | _ + 1, [] => []
  | fuel + 1, c :: cs =>
    if pat.isPrefixOf (c :: cs) then
      rep ++ replaceFuel pat rep fuel ((c :: cs).drop pat.length)
    else
      c :: replaceFuel pat rep fuel cs

/-- Python `t.replace(pat, rep)`: every non-overlapping occurrence of
`pat` in `t` is replaced by `rep`, scanning left to right.  An empty
pattern inserts `rep` before every character and at the end, as in
Python. -/
def pyReplace (pat rep t : List Char) : List Char :=
  match pat with
  | [] => rep ++ t.foldr (fun c acc => c :: (rep ++ acc)) []
  | _ :: _ => replaceFuel pat rep t.length t

/-- Python `pat in t`: substring occurrence test. -/
def occursIn (pat : List Char) : List Char → Bool
  | [] => pat.isEmpty
  | c :: cs => pat.isPrefixOf (c :: cs) || occursIn pat cs

/-- Fuel-driven scanner behind `pyCount`. -/
def countFuel (pat : List Char) : Nat → List Char → Nat
  | 0, _ => 0
  | _ + 1, [] => 0
  | fuel + 1, c :: cs =>
    if pat.isPrefixOf (c :: cs) then
      countFuel pat fuel ((c :: cs).drop pat.length) + 1
    else
      countFuel pat fuel cs

/-- Python `t.count(pat)`: number of non-overlapping occurrences. -/
def pyCount (pat t : List Char) : Nat :=
  match pat with
  | [] => t.length + 1
  | _ :: _ => countFuel pat t.length t

/-- One `content = content.replace(pat, rep)` statement. -/
def applyRule (t : List Char) (r : Rule) : List Char := pyReplace r.pat r.rep t

/-- An ordered chain of replace statements, each feeding the next. -/
def applyRules (rs : List Rule) (t : List Char) : List Char := rs.foldl applyRule t

/-! ### fix_ui.py (Color Brightener) -/

/-- fix_ui.py lines 13-21: the common rule chain applied to every target
file (gray shifts, then slate shifts). -/
def commonRules : List Rule :=
  [ mkRule "text-gray-700" "text-gray-400",
    mkRule "text-gray-600" "text-gray-300",
    mkRule "text-gray-500" "text-gray-200",
    mkRule "text-gray-400" "text-gray-100",
    mkRule "text-gray-300" "text-white",
    mkRule "text-slate-600" "text-slate-300",
    mkRule "text-slate-500" "text-slate-200",
    mkRule "text-slate-400" "text-slate-100" ]

/-- fix_ui.py lines 13-17: just the gray-shift rules. -/
def grayShiftRules : List Rule :=
  [ mkRule "text-gray-700" "text-gray-400",
    mkRule "text-gray-600" "text-gray-300",
    mkRule "text-gray-500" "text-gray-200",
    mkRule "text-gray-400" "text-gray-100",
    mkRule "text-gray-300" "text-white" ]

/-- fix_ui.py lines 25-32: rules applied when `"page.tsx" in filepath`. -/
def pageRules : List Rule :=
  [ mkRule "bg-[#050505]" "bg-[#0f0c29]",
    mkRule "bg-black" "bg-[#151232]",
    mkRule "className=\"min-h-screen bg-[#0f0c29]"
      "className=\"min-h-screen bg-gradient-to-br from-[#0f0c29] via-[#302b63] to-[#24243e]" ]

/-- fix_ui.py lines 34-36: rules applied when `"HackathonForm.tsx" in filepath`. -/
def formRules : List Rule :=
  [ mkRule "bg-slate-950" "bg-[#0f0c29]",
    mkRule "bg-slate-900" "bg-[#151232]" ]

/-- The page.tsx path predicate pattern. -/
def pagePat : List Char := "page.tsx".toList

/-- The HackathonForm.tsx path predicate pattern. -/
def formPat : List Char := "HackathonForm.tsx".toList

/-- fix_ui.py lines 8-36: the in-memory transformation applied to one
file's content given its path: the common chain, then the page.tsx
conditional chain, then the HackathonForm.tsx conditional chain. -/
def fixUiTransform (filepath content : List Char) : List Char :=
  let content := applyRules commonRules content
  let content := if occursIn pagePat filepath then applyRules pageRules content else content
  let content := if occursIn formPat filepath then applyRules formRules content else content
  content

/-- fix_ui.py lines 3-6: the target paths. -/
def fixUiPath1 : List Char :=
  "/Applications/My Mac/Development/Projects/IndiaNext/hackathon-website/app/page.tsx".toList

def fixUiPath2 : List Char :=
  "/Applications/My Mac/Development/Projects/IndiaNext/hackathon-website/app/components/HackathonForm.tsx".toList

def files_to_update : List (List Char) := [fixUiPath1, fixUiPath2]

/-- fix_ui.py line 41: the fixed summary message. -/
def fixUiMessage : List Char := "Replaced gray text colors and backgrounds!".toList

/-! ### remove_solid_bg.py (Background Transparency Adjuster) -/

/-- remove_solid_bg.py line 3: the single target path. -/
def removeSolidPath : List Char :=
  "/Applications/My Mac/Development/Projects/IndiaNext/hackathon-website/app/page.tsx".toList

/-- remove_solid_bg.py lines 10-14: `cyber_str_old` (a Python
triple-quoted literal; `\x7b` and `\x7d` denote its brace characters). -/
def cyberStrOld : List Char :=
  "const CyberBackground = () => (\n    <div className=\"fixed inset-0 z-0 bg-black/20 perspective-1000 overflow-hidden\">\n        \x7b/* Deep Space Base */\x7d\n        <div className=\"absolute inset-0 bg-[radial-gradient(circle_at_center,#0d0d1a_0%,#000000_100%)]\" />".toList

/-- remove_solid_bg.py lines 15-18: `cyber_str_new` (ends with a newline
from the `\n` escape inside the Python literal). -/
def cyberStrNew : List Char :=
  "const CyberBackground = () => (\n    <div className=\"fixed inset-0 z-0 perspective-1000 overflow-hidden border-none mix-blend-screen pointer-events-none\">\n        \x7b/* Removed black radial gradient to reveal main page gradient */\x7d\n".toList

/-- remove_solid_bg.py line 22: `old_wrapper`. -/
def oldWrapper : List Char :=
  "className=\"min-h-screen bg-gradient-to-br from-[#0f0c29] via-[#302b63] to-[#24243e] text-white font-sans selection:bg-orange-500/30 selection:text-orange-200 overflow-x-hidden\"".toList

/-- remove_solid_bg.py line 23: `new_wrapper`. -/
def newWrapper : List Char :=
  "className=\"min-h-screen bg-gradient-to-b from-[#111A31] via-[#2F1D51] to-[#1F1738] text-white font-sans selection:bg-orange-500/30 selection:text-orange-200 overflow-x-hidden\"".toList

/-- remove_solid_bg.py lines 8-26: the full ordered replace chain of the
second job. -/
def removeSolidRules : List Rule :=
  [ mkRule "bg-[#151232]" "bg-black/20",
    mkRule "bg-[#0f0c29]" "bg-black/20",
    ⟨cyberStrOld, cyberStrNew⟩,
    ⟨oldWrapper, newWrapper⟩ ]

/-- The in-memory transformation of remove_solid_bg.py. -/
def removeSolidTransform (content : List Char) : List Char :=
  applyRules removeSolidRules content

/-- remove_solid_bg.py line 28: marker counted by the final print. -/
def gradMarker : List Char := "bg-gradient-to-b".toList

/-- Every replacement rule appearing in either script. -/
def allScriptRules : List Rule :=
  commonRules ++ pageRules ++ formRules ++ removeSolidRules

/-! ### Effect traces (file reads/writes and console prints) -/

/-- An observable effect of running a script. -/
inductive Effect where
  | readF (path : List Char)
  | writeF (path content : List Char)
  | printLine (line : List Char)
  | printCount (n : Nat)
deriving DecidableEq

/-- Is the effect a console print? -/
def isPrintEffect : Effect → Bool
  | .printLine _ => true
  | .printCount _ => true
  | _ => false

/-- The effect trace of fix_ui.py, given the initial file contents as a
map from path to text: for each target file a read and a write of the
transformed text (lines 8-39), then the single final print (line 41). -/
def fixUiTrace (readF : List Char → List Char) : List Effect :=
  (files_to_update.map (fun fp =>
    [Effect.readF fp, Effect.writeF fp (fixUiTransform fp (readF fp))])).flatten
  ++ [Effect.printLine fixUiMessage]

/-- The effect trace of remove_solid_bg.py: a read, a write of the
transformed text (lines 4-26), then the print of the marker count over
the final text (line 28). -/
def removeSolidTrace (readF : List Char → List Char) : List Effect :=
  [Effect.readF removeSolidPath,
   Effect.writeF removeSolidPath (removeSolidTransform (readF removeSolidPath)),
   Effect.printCount (pyCount gradMarker (removeSolidTransform (readF removeSolidPath)))]

/-! ### Helper lemmas about the replace scanner -/

lemma isPrefixOf_append_self (xs ys : List Char) : xs.isPrefixOf (xs ++ ys) = true := by
  induction xs with
  | nil => simp [List.isPrefixOf]
  | cons x xs ih =>
    show ((x == x) && xs.isPrefixOf (xs ++ ys)) = true
    simp [ih]

lemma isPrefixOf_append_of_le (xs u v : List Char) (h : xs.length ≤ u.length) :
    xs.isPrefixOf (u ++ v) = xs.isPrefixOf u := by
  induction xs generalizing u with
  | nil => simp [List.isPrefixOf]
  | cons x xs ih =>
    cases u with
    | nil => exact absurd h (by simp)
    | cons a u =>
      show ((x == a) && xs.isPrefixOf (u ++ v)) = ((x == a) && xs.isPrefixOf u)
      rw [ih u (by simpa using h)]

lemma occursIn_cons (pat : List Char) (c : Char) (cs : List Char) :
    occursIn pat (c :: cs) = (pat.isPrefixOf (c :: cs) || occursIn pat cs) := rfl

lemma occursIn_nil_pat (t : List Char) : occursIn [] t = true := by
  cases t <;> simp [occursIn, List.isPrefixOf]

lemma replaceFuel_nil (pat rep : List Char) (fuel : Nat) :
    replaceFuel pat rep fuel [] = [] := by
  cases fuel <;> rfl

lemma replaceFuel_succ (pat rep : List Char) (fuel : Nat) (c : Char) (cs : List Char) :
    replaceFuel pat rep (fuel + 1) (c :: cs) =
      if pat.isPrefixOf (c :: cs) then
        rep ++ replaceFuel pat rep fuel ((c :: cs).drop pat.length)
      else c :: replaceFuel pat rep fuel cs := rfl

lemma replaceFuel_of_not_occurs (pat rep : List Char) :
    ∀ (fuel : Nat) (t : List Char), occursIn pat t = false → replaceFuel pat rep fuel t = t := by
  intro fuel
  induction fuel with
  | zero => intro t _; rfl
  | succ f ih =>
    intro t h
    cases t with
    | nil => rfl
    | cons c cs =>
      rw [occursIn_cons, Bool.or_eq_false_iff] at h
      simp [replaceFuel_succ, h.1, ih cs h.2]

lemma pyReplace_of_not_occurs (pat rep t : List Char) (h : occursIn pat t = false) :
    pyReplace pat rep t = t := by
  cases pat with
  | nil => rw [occursIn_nil_pat] at h; cases h
  | cons p ps => exact replaceFuel_of_not_occurs (p :: ps) rep t.length t h

lemma applyRules_of_not_occurs (rs : List Rule) (t : List Char)
    (h : ∀ r ∈ rs, occursIn r.pat t = false) : applyRules rs t = t := by
  induction rs with
  | nil => rfl
  | cons r rs ih =>
    have h1 : applyRule t r = t := pyReplace_of_not_occurs r.pat r.rep t (h r (by simp))
    show List.foldl applyRule (applyRule t r) rs = t
    rw [h1]
    exact ih (fun r hr => h r (List.mem_cons_of_mem _ hr))

lemma replaceFuel_congr (p : Char) (ps rep : List Char) :
    ∀ (f1 f2 : Nat) (t : List Char), t.length ≤ f1 → t.length ≤ f2 →
      replaceFuel (p :: ps) rep f1 t = replaceFuel (p :: ps) rep f2 t := by
  intro f1
  induction f1 with
  | zero =>
    intro f2 t h1 _
    have ht : t = [] := List.length_eq_zero.mp (Nat.le_zero.mp h1)
    subst ht
    rw [replaceFuel_nil, replaceFuel_nil]
  | succ f ih =>
    intro f2 t h1 h2
    cases t with
    | nil => rw [replaceFuel_nil, replaceFuel_nil]
    | cons c cs =>
      cases f2 with
      | zero => simp at h2
      | succ f2 =>
        have hcs1 : cs.length ≤ f := by simpa using h1
        have hcs2 : cs.length ≤ f2 := by simpa using h2
        cases hp : (p :: ps).isPrefixOf (c :: cs) with
        | true =>
          have hd : ((c :: cs).drop (p :: ps).length).length ≤ cs.length := by
            simp only [List.length_drop, List.length_cons]
            omega
          rw [replaceFuel_succ, replaceFuel_succ, if_pos hp, if_pos hp]
          rw [ih f2 _ (le_trans hd hcs1) (le_trans hd hcs2)]
        | false =>
          rw [replaceFuel_succ, replaceFuel_succ, if_neg (by simp [hp]), if_neg (by simp [hp])]
          rw [ih f2 cs hcs1 hcs2]

lemma pyReplace_cons_no_match (p : Char) (ps rep : List Char) (c : Char) (cs : List Char)
    (h : (p :: ps).isPrefixOf (c :: cs) = false) :
    pyReplace (p :: ps) rep (c :: cs) = c :: pyReplace (p :: ps) rep cs := by
  show replaceFuel (p :: ps) rep (cs.length + 1) (c :: cs)
      = c :: replaceFuel (p :: ps) rep cs.length cs
  rw [replaceFuel_succ, if_neg (by simp [h])]

lemma pyReplace_head_match (p : Char) (ps rep b : List Char) :
    pyReplace (p :: ps) rep ((p :: ps) ++ b) = rep ++ pyReplace (p :: ps) rep b := by
  have hpre : (p :: ps).isPrefixOf ((p :: ps) ++ b) = true := isPrefixOf_append_self _ _
  have hdrop : ((p :: ps) ++ b).drop (p :: ps).length = b := List.drop_left _ _
  show replaceFuel (p :: ps) rep ((ps ++ b).length + 1) ((p :: ps) ++ b)
      = rep ++ replaceFuel (p :: ps) rep b.length b
  rw [show ((p :: ps) ++ b : List Char) = p :: (ps ++ b) from rfl] at hpre hdrop ⊢
  rw [replaceFuel_succ, if_pos hpre, hdrop]
  rw [replaceFuel_congr p ps rep (ps ++ b).length b.length b (by simp) (le_refl _)]

lemma pyReplace_first_occurrence (p : Char) (ps rep : List Char) :
    ∀ (a b : List Char),
      occursIn (p :: ps) (a ++ (p :: ps).dropLast) = false →
      pyReplace (p :: ps) rep (a ++ (p :: ps) ++ b) = a ++ rep ++ pyReplace (p :: ps) rep b := by
  intro a
  induction a with
  | nil =>
    intro b _
    simpa using pyReplace_head_match p ps rep b
  | cons c a ih =>
    intro b h
    rw [List.cons_append, occursIn_cons, Bool.or_eq_false_iff] at h
    obtain ⟨h1, h2⟩ := h
    have hlast : (p :: ps).dropLast ++ [(p :: ps).getLast (by simp)] = p :: ps :=
      List.dropLast_append_getLast (by simp)
    have e2 : a ++ ((p :: ps) ++ b)
        = (a ++ (p :: ps).dropLast) ++ ((p :: ps).getLast (by simp) :: b) := by
      conv_lhs => rw [← hlast]
      simp
    have hmain : (p :: ps).isPrefixOf (c :: (a ++ ((p :: ps) ++ b))) = false := by
      rw [show c :: (a ++ ((p :: ps) ++ b))
            = (c :: (a ++ (p :: ps).dropLast)) ++ ((p :: ps).getLast (by simp) :: b) by
          rw [e2]; rfl]
      rw [isPrefixOf_append_of_le]
      · exact h1
      · simp only [List.length_cons, List.length_append, List.length_dropLast]
        omega
    calc pyReplace (p :: ps) rep ((c :: a) ++ (p :: ps) ++ b)
        = pyReplace (p :: ps) rep (c :: (a ++ ((p :: ps) ++ b))) := by
          rw [show ((c :: a) ++ (p :: ps) ++ b : List Char)
              = c :: (a ++ ((p :: ps) ++ b)) by simp]
      _ = c :: pyReplace (p :: ps) rep (a ++ ((p :: ps) ++ b)) :=
          pyReplace_cons_no_match p ps rep c _ hmain
      _ = c :: pyReplace (p :: ps) rep (a ++ (p :: ps) ++ b) := by rw [List.append_assoc]
      _ = c :: (a ++ rep ++ pyReplace (p :: ps) rep b) := by rw [ih b h2]
      _ = (c :: a) ++ rep ++ pyReplace (p :: ps) rep b := by simp

lemma pyReplace_at_occurrence (pat rep a b : List Char) (hne : pat ≠ [])
    (h : occursIn pat (a ++ pat.dropLast) = false) :
    pyReplace pat rep (a ++ pat ++ b) = a ++ rep ++ pyReplace pat rep b := by
  cases pat with
  | nil => exact absurd rfl hne
  | cons p ps => exact pyReplace_first_occurrence p ps rep a b h

/-! ### Named strings for the page.tsx gradient cascade -/

/-- The className text shared by the black wrapper and the gradient rule. -/
def cmPre : List Char := "className=\"min-h-screen ".toList

/-- The original dark background class. -/
def bg050 : List Char := "bg-[#050505]".toList

/-- The branding background class produced by the first page.tsx rule. -/
def bg0f : List Char := "bg-[#0f0c29]".toList

/-- Pattern of the second page.tsx rule. -/
def bgBlack : List Char := "bg-black".toList

/-- The wrapper text as it stands before the page.tsx rules run. -/
def gradOld : List Char := cmPre ++ bg050

/-- The wrapper text after the first page.tsx rule: exactly the pattern of
the third (gradient) page.tsx rule. -/
def gradMid : List Char := cmPre ++ bg0f

/-- The gradient wrapper text produced by the third page.tsx rule. -/
def gradNew : List Char :=
  "className=\"min-h-screen bg-gradient-to-br from-[#0f0c29] via-[#302b63] to-[#24243e]".toList

/-! ### Claim theorems -/

set_option maxRecDepth 100000

/-- C1 counterexample: the common rule chain does not map
`"text-gray-700 bg-black"` to `"text-gray-400 bg-black"`: the later
gray-400 rule re-fires on the output of the gray-700 rule within the
same run. -/
theorem commonRules_scenario1_ne :
    applyRules commonRules ("text-gray-700 bg-black".toList)
      ≠ "text-gray-400 bg-black".toList := by decide

/-- C1 (amended): the common rule chain maps `"text-gray-700 bg-black"`
to `"text-gray-100 bg-black"` (the gray-700 rule fires and the later
gray-400 rule re-matches its output within the same run), and
`"bg-black"` alone is untouched by the common chain. -/
theorem commonRules_scenario1 :
    applyRules commonRules ("text-gray-700 bg-black".toList) = "text-gray-100 bg-black".toList
    ∧ applyRules commonRules ("bg-black".toList) = "bg-black".toList :=
  ⟨by decide, by decide⟩

/-- C2 counterexample: it is not the case that two runs of the gray-shift
rules on `"text-gray-700"` give `"text-white"` with the one-run result not
a fixed point; in fact one run already cascades 700→400→100 and a second
run changes nothing. -/
theorem grayShift_twice_claim_false :
    ¬ (applyRules grayShiftRules (applyRules grayShiftRules ("text-gray-700".toList))
          = "text-white".toList
       ∧ applyRules grayShiftRules (applyRules grayShiftRules ("text-gray-700".toList))
          ≠ applyRules grayShiftRules ("text-gray-700".toList)) := by decide

/-- C2 (amended): one run of the gray-shift rules on `"text-gray-700"`
already yields `"text-gray-100"` (the cascade 700→400→100 happens within
the single run), and that output is a fixed point of the rules: the
second run returns it unchanged, so two runs also yield
`"text-gray-100"`, never `"text-white"`. -/
theorem grayShift_twice_fixed_point :
    applyRules grayShiftRules ("text-gray-700".toList) = "text-gray-100".toList
    ∧ applyRules grayShiftRules (applyRules grayShiftRules ("text-gray-700".toList))
        = applyRules grayShiftRules ("text-gray-700".toList) :=
  ⟨by decide, by decide⟩

/-- C3: under the common rule chain the inputs `"text-gray-700"` and
`"text-gray-400"` both map to `"text-gray-100"`: the gray-400 rule
re-matches, within a single run, the text produced by the gray-700 rule,
collapsing the two original shades. -/
theorem commonRules_collapse_shades :
    applyRules commonRules ("text-gray-700".toList) = "text-gray-100".toList
    ∧ applyRules commonRules ("text-gray-400".toList) = "text-gray-100".toList :=
  ⟨by decide, by decide⟩

/-- C5: the Background Transparency Adjuster's full ordered rule chain
maps the input text `"bg-[#0f0c29]"` to `"bg-black/20"`. -/
theorem removeSolid_scenario4 :
    removeSolidTransform ("bg-[#0f0c29]".toList) = "bg-black/20".toList := by decide

/-- C8: composing the two jobs' text transformations in order maps
`"bg-black"` to `"bg-black/20"`: the Color Brightener (on the page.tsx
path) rewrites it to `"bg-[#151232]"` and the Background Transparency
Adjuster rewrites that to `"bg-black/20"`. -/
theorem jobs_composition_bg_black :
    fixUiTransform fixUiPath1 ("bg-black".toList) = "bg-[#151232]".toList
    ∧ removeSolidTransform ("bg-[#151232]".toList) = "bg-black/20".toList
    ∧ removeSolidTransform (fixUiTransform fixUiPath1 ("bg-black".toList))
        = "bg-black/20".toList :=
  ⟨by decide, by decide, by decide⟩

/-- C9: both scripts' text transformations are deterministic: two
applications of the same transformation to equal input texts (with the
same path) produce equal outputs. -/
theorem transformations_deterministic (path t1 t2 : List Char) (h : t1 = t2) :
    fixUiTransform path t1 = fixUiTransform path t2
    ∧ removeSolidTransform t1 = removeSolidTransform t2 := by
  subst h
  exact ⟨rfl, rfl⟩

/-- C9 witness at concrete inputs. -/
theorem transformations_deterministic_witness :
    fixUiTransform fixUiPath1 ("text-gray-700 bg-black".toList)
        = fixUiTransform fixUiPath1 ("text-gray-700 bg-black".toList)
    ∧ removeSolidTransform ("text-gray-700 bg-black".toList)
        = removeSolidTransform ("text-gray-700 bg-black".toList) :=
  transformations_deterministic fixUiPath1 _ _ rfl

/-- C4: for every rule of either script and every text, if the rule's
pattern does not occur as a substring of the text, applying the rule
leaves the text unchanged. -/
theorem absent_rule_is_noop (r : Rule) (_hr : r ∈ allScriptRules) (t : List Char)
    (h : occursIn r.pat t = false) : applyRule t r = t :=
  pyReplace_of_not_occurs r.pat r.rep t h

/-- C4 witness: the gray-700 rule is a no-op on a text without its
pattern. -/
theorem absent_rule_is_noop_witness :
    mkRule "text-gray-700" "text-gray-400" ∈ allScriptRules
    ∧ occursIn (mkRule "text-gray-700" "text-gray-400").pat ("hello world".toList) = false
    ∧ applyRule ("hello world".toList) (mkRule "text-gray-700" "text-gray-400")
        = "hello world".toList :=
  ⟨by decide, by decide,
    absent_rule_is_noop (mkRule "text-gray-700" "text-gray-400") (by decide)
      ("hello world".toList) (by decide)⟩

/-- C6: for every path and input text, the Color Brightener applies the
common chain followed by each conditional chain whose path predicate
succeeds, in declaration order; the predicates are not mutually
exclusive, so a path containing both `"page.tsx"` and
`"HackathonForm.tsx"` receives both conditional chains, page.tsx rules
before HackathonForm.tsx rules. -/
theorem fixUi_rule_selection (path content : List Char) :
    fixUiTransform path content
      = applyRules (commonRules
          ++ (if occursIn pagePat path then pageRules else [])
          ++ (if occursIn formPat path then formRules else [])) content
    ∧ (occursIn pagePat path = true → occursIn formPat path = true →
        fixUiTransform path content
          = applyRules (commonRules ++ pageRules ++ formRules) content) := by
  constructor
  · cases hp : occursIn pagePat path <;> cases hf : occursIn formPat path <;>
      simp [fixUiTransform, applyRules, hp, hf, List.foldl_append]
  · intro hp hf
    simp [fixUiTransform, applyRules, hp, hf, List.foldl_append]

/-- C6 witness: a path containing both predicate substrings receives
both conditional chains after the common chain. -/
theorem fixUi_rule_selection_witness :
    occursIn pagePat ("app/HackathonForm.tsx/page.tsx".toList) = true
    ∧ occursIn formPat ("app/HackathonForm.tsx/page.tsx".toList) = true
    ∧ fixUiTransform ("app/HackathonForm.tsx/page.tsx".toList)
          ("text-gray-700 bg-black bg-slate-950".toList)
        = applyRules (commonRules ++ pageRules ++ formRules)
          ("text-gray-700 bg-black bg-slate-950".toList) :=
  ⟨by decide, by decide,
    (fixUi_rule_selection ("app/HackathonForm.tsx/page.tsx".toList)
      ("text-gray-700 bg-black bg-slate-950".toList)).2 (by decide) (by decide)⟩

/-- C7: for a path matching the page.tsx predicate (and not the
HackathonForm one), an occurrence of
`className="min-h-screen bg-[#050505]` (`gradOld`) in the input is
rewritten to the gradient wrapper `gradNew`: the first page.tsx rule
turns it into `className="min-h-screen bg-[#0f0c29]` (`gradMid`), which
is exactly the third rule's pattern — an intended cascading match.  The
side conditions say the surrounding text triggers no other rule and
contains no further or overlapping occurrences. -/
theorem pageTsx_gradient_cascade (path a b : List Char)
    (hpage : occursIn pagePat path = true)
    (hform : occursIn formPat path = false)
    (hcommon : ∀ r ∈ commonRules, occursIn r.pat (a ++ gradOld ++ b) = false)
    (h050 : occursIn bg050 ((a ++ cmPre) ++ bg050.dropLast) = false)
    (h050b : occursIn bg050 b = false)
    (hblack : occursIn bgBlack (a ++ gradMid ++ b) = false)
    (hmid : occursIn gradMid (a ++ gradMid.dropLast) = false)
    (hmidb : occursIn gradMid b = false) :
    fixUiTransform path (a ++ gradOld ++ b) = a ++ gradNew ++ b := by
  have hne050 : bg050 ≠ [] := by decide
  have hnemid : gradMid ≠ [] := by decide
  have s1 : applyRule (a ++ gradOld ++ b) (mkRule "bg-[#050505]" "bg-[#0f0c29]")
      = a ++ gradMid ++ b := by
    show pyReplace bg050 bg0f (a ++ gradOld ++ b) = a ++ gradMid ++ b
    rw [show a ++ gradOld ++ b = (a ++ cmPre) ++ bg050 ++ b by
          show a ++ (cmPre ++ bg050) ++ b = (a ++ cmPre) ++ bg050 ++ b
          simp [List.append_assoc]]
    rw [pyReplace_at_occurrence bg050 bg0f (a ++ cmPre) b hne050 h050,
        pyReplace_of_not_occurs bg050 bg0f b h050b]
    show (a ++ cmPre) ++ bg0f ++ b = a ++ (cmPre ++ bg0f) ++ b
    simp [List.append_assoc]
  have s2 : applyRule (a ++ gradMid ++ b) (mkRule "bg-black" "bg-[#151232]")
      = a ++ gradMid ++ b :=
    pyReplace_of_not_occurs bgBlack _ _ hblack
  have s3 : applyRule (a ++ gradMid ++ b)
      (mkRule "className=\"min-h-screen bg-[#0f0c29]"
        "className=\"min-h-screen bg-gradient-to-br from-[#0f0c29] via-[#302b63] to-[#24243e]")
      = a ++ gradNew ++ b := by
    have epat : ("className=\"min-h-screen bg-[#0f0c29]" : String).toList = gradMid := by decide
    show pyReplace ("className=\"min-h-screen bg-[#0f0c29]" : String).toList gradNew
        (a ++ gradMid ++ b) = a ++ gradNew ++ b
    rw [epat, pyReplace_at_occurrence gradMid gradNew a b hnemid hmid,
        pyReplace_of_not_occurs gradMid gradNew b hmidb]
  have hsel : fixUiTransform path (a ++ gradOld ++ b)
      = applyRules pageRules (a ++ gradOld ++ b) := by
    unfold fixUiTransform
    rw [applyRules_of_not_occurs commonRules _ hcommon, hpage, hform]
    simp
  rw [hsel]
  show applyRule (applyRule (applyRule (a ++ gradOld ++ b)
      (mkRule "bg-[#050505]" "bg-[#0f0c29]")) (mkRule "bg-black" "bg-[#151232]"))
      (mkRule "className=\"min-h-screen bg-[#0f0c29]"
        "className=\"min-h-screen bg-gradient-to-br from-[#0f0c29] via-[#302b63] to-[#24243e]")
      = a ++ gradNew ++ b
  rw [s1, s2, s3]

/-- C7 witness: the cascade rewrites an occurrence of the dark wrapper
embedded in surrounding markup on the real page.tsx path. -/
theorem pageTsx_gradient_cascade_witness :
    fixUiTransform fixUiPath1 ("<main ".toList ++ gradOld ++ " p-4\">".toList)
      = "<main ".toList ++ gradNew ++ " p-4\">".toList :=
  pageTsx_gradient_cascade fixUiPath1 ("<main ".toList) (" p-4\">".toList)
    (by decide) (by decide) (by decide) (by decide) (by decide) (by decide)
    (by decide) (by decide)

/-- C10: each job's trace contains exactly one print, placed after all
file rewrites: the Color Brightener prints the fixed success message and
the Background Transparency Adjuster prints the count of the marker
`"bg-gradient-to-b"` in the final transformed text. -/
theorem single_summary_print (readF : List Char → List Char) :
    (fixUiTrace readF).filter isPrintEffect = [Effect.printLine fixUiMessage]
    ∧ (fixUiTrace readF).getLast? = some (Effect.printLine fixUiMessage)
    ∧ (removeSolidTrace readF).filter isPrintEffect
        = [Effect.printCount
            (pyCount gradMarker (removeSolidTransform (readF removeSolidPath)))]
    ∧ (removeSolidTrace readF).getLast?
        = some (Effect.printCount
            (pyCount gradMarker (removeSolidTransform (readF removeSolidPath)))) := by
  refine ⟨?_, ?_, ?_, ?_⟩ <;>
    simp [fixUiTrace, removeSolidTrace, files_to_update, isPrintEffect]
